import Mathlib

/-!
Verification of the WebGL practice repository (src/shaders.rs).

The repository draws one rotating colored quad.  The drawing routine
`draw_scene` is a straight-line sequence of WebGL calls with checked
attribute lookups and unchecked (unwrap) uniform lookups; the matrix
builders `create_perspective_matrix` and `create_model_view_matrix` wrap
nalgebra_glm.  We embed the routine shallowly: the GL context becomes a
trace of emitted commands, HashMaps become association lists, Rust `f32`
values become real numbers (floating rounding is abstracted away), and a
Rust panic becomes an explicit outcome constructor.
-/

namespace Webgl

/-- 4 by 4 real matrix with explicit entries; `mIJ` is row `I`, column `J`. -/
@[ext]
structure Mat4 where
  m00 : ℝ
  m01 : ℝ
  m02 : ℝ
  m03 : ℝ
  m10 : ℝ
  m11 : ℝ
  m12 : ℝ
  m13 : ℝ
  m20 : ℝ
  m21 : ℝ
  m22 : ℝ
  m23 : ℝ
  m30 : ℝ
  m31 : ℝ
  m32 : ℝ
  m33 : ℝ

/-- Row-by-column product of two `Mat4`. -/
def matMul (A B : Mat4) : Mat4 where
  m00 := A.m00 * B.m00 + A.m01 * B.m10 + A.m02 * B.m20 + A.m03 * B.m30
  m01 := A.m00 * B.m01 + A.m01 * B.m11 + A.m02 * B.m21 + A.m03 * B.m31
  m02 := A.m00 * B.m02 + A.m01 * B.m12 + A.m02 * B.m22 + A.m03 * B.m32
  m03 := A.m00 * B.m03 + A.m01 * B.m13 + A.m02 * B.m23 + A.m03 * B.m33
  m10 := A.m10 * B.m00 + A.m11 * B.m10 + A.m12 * B.m20 + A.m13 * B.m30
  m11 := A.m10 * B.m01 + A.m11 * B.m11 + A.m12 * B.m21 + A.m13 * B.m31
  m12 := A.m10 * B.m02 + A.m11 * B.m12 + A.m12 * B.m22 + A.m13 * B.m32
  m13 := A.m10 * B.m03 + A.m11 * B.m13 + A.m12 * B.m23 + A.m13 * B.m33
  m20 := A.m20 * B.m00 + A.m21 * B.m10 + A.m22 * B.m20 + A.m23 * B.m30
  m21 := A.m20 * B.m01 + A.m21 * B.m11 + A.m22 * B.m21 + A.m23 * B.m31
  m22 := A.m20 * B.m02 + A.m21 * B.m12 + A.m22 * B.m22 + A.m23 * B.m32
  m23 := A.m20 * B.m03 + A.m21 * B.m13 + A.m22 * B.m23 + A.m23 * B.m33
  m30 := A.m30 * B.m00 + A.m31 * B.m10 + A.m32 * B.m20 + A.m33 * B.m30
  m31 := A.m30 * B.m01 + A.m31 * B.m11 + A.m32 * B.m21 + A.m33 * B.m31
  m32 := A.m30 * B.m02 + A.m31 * B.m12 + A.m32 * B.m22 + A.m33 * B.m32
  m33 := A.m30 * B.m03 + A.m31 * B.m13 + A.m32 * B.m23 + A.m33 * B.m33

/-- The identity matrix, `nalgebra_glm::identity()`. -/
def identity4 : Mat4 where
  m00 := 1
  m01 := 0
  m02 := 0
  m03 := 0
  m10 := 0
  m11 := 1
  m12 := 0
  m13 := 0
  m20 := 0
  m21 := 0
  m22 := 1
  m23 := 0
  m30 := 0
  m31 := 0
  m32 := 0
  m33 := 1

/-- `nalgebra_glm::translate(m, v)`: multiply `m` on the right by the
homogeneous translation matrix for the vector `(vx, vy, vz)`. -/
def glm_translate (m : Mat4) (vx vy vz : ℝ) : Mat4 :=
  matMul m
    { m00 := 1, m01 := 0, m02 := 0, m03 := vx
      m10 := 0, m11 := 1, m12 := 0, m13 := vy
      m20 := 0, m21 := 0, m22 := 1, m23 := vz
      m30 := 0, m31 := 0, m32 := 0, m33 := 1 }

/-- `nalgebra_glm::rotate(m, angle, axis)`: normalize the axis, build the
axis-angle (Rodrigues) rotation matrix, extend it to homogeneous
coordinates and multiply `m` on the right by it. -/
noncomputable def glm_rotate (m : Mat4) (angle ax ay az : ℝ) : Mat4 :=
  let n := Real.sqrt (ax * ax + ay * ay + az * az)
  let ux := ax / n
  let uy := ay / n
  let uz := az / n
  let c := Real.cos angle
  let s := Real.sin angle
  matMul m
    { m00 := c + ux * ux * (1 - c), m01 := ux * uy * (1 - c) - uz * s
      m02 := ux * uz * (1 - c) + uy * s, m03 := 0
      m10 := uy * ux * (1 - c) + uz * s, m11 := c + uy * uy * (1 - c)
      m12 := uy * uz * (1 - c) - ux * s, m13 := 0
      m20 := uz * ux * (1 - c) - uy * s, m21 := uz * uy * (1 - c) + ux * s
      m22 := c + uz * uz * (1 - c), m23 := 0
      m30 := 0, m31 := 0, m32 := 0, m33 := 1 }

/-- `nalgebra_glm::perspective(aspect, fovy, near, far)` (right-handed,
-1..1 depth range, the crate default). -/
noncomputable def glm_perspective (aspect fovy near far : ℝ) : Mat4 :=
  let tan_half_fovy := Real.tan (fovy / 2)
  { m00 := 1 / (aspect * tan_half_fovy), m01 := 0, m02 := 0, m03 := 0
    m10 := 0, m11 := 1 / tan_half_fovy, m12 := 0, m13 := 0
    m20 := 0, m21 := 0, m22 := -(far + near) / (far - near)
    m23 := -(2 * far * near) / (far - near)
    m30 := 0, m31 := 0, m32 := -1, m33 := 0 }

/-- `create_model_view_matrix` (src/shaders.rs lines 116-123): start from
the identity, translate by `(0, 0, -6)`, then rotate by `angle` radians
about the axis `(0, 0, 1)`. -/
noncomputable def create_model_view_matrix (angle : ℝ) : Mat4 :=
  let model_view_matrix := identity4
  let translated_matrix := glm_translate model_view_matrix 0 0 (-6)
  glm_rotate translated_matrix angle 0 0 1

/-- `field_of_view` (src/shaders.rs line 103): 45 degrees in radians. -/
noncomputable def field_of_view : ℝ := 45 * Real.pi / 180

/-- `z_near` (src/shaders.rs line 109). -/
def z_near : ℝ := 0.1

/-- `z_far` (src/shaders.rs line 110). -/
def z_far : ℝ := 100.0

/-- WebGl2RenderingContext::DEPTH_TEST. -/
def DEPTH_TEST : Nat := 2929

/-- WebGl2RenderingContext::LEQUAL. -/
def LEQUAL : Nat := 515

/-- WebGl2RenderingContext::COLOR_BUFFER_BIT. -/
def COLOR_BUFFER_BIT : Nat := 16384

/-- WebGl2RenderingContext::DEPTH_BUFFER_BIT. -/
def DEPTH_BUFFER_BIT : Nat := 256

/-- WebGl2RenderingContext::ARRAY_BUFFER. -/
def ARRAY_BUFFER : Nat := 34962

/-- WebGl2RenderingContext::FLOAT. -/
def FLOAT : Nat := 5126

/-- WebGl2RenderingContext::TRIANGLE_STRIP. -/
def TRIANGLE_STRIP : Nat := 5

/-- The canvas element behind the GL context: its client dimensions, the
only data `create_perspective_matrix` reads from it (Rust `i32`). -/
structure Canvas where
  client_width : Int
  client_height : Int

/-- The GL context as seen by the pure model: `canvas()` returns
`Option` of the canvas element. -/
structure GlContext where
  canvas : Option Canvas

/-- One WebGL call emitted by the drawing routine.  Matrix uploads carry
their data as the flattened 16-element array passed to the API. -/
inductive GLCmd where
  | clearColor (r g b a : ℝ)
  | enable (capability : Nat)
  | depthFunc (func : Nat)
  | clear (mask : Nat)
  | bindBuffer (target : Nat) (buffer : Nat)
  | vertexAttribPointer (slot : Nat) (numComponents : Int) (bufferType : Nat)
      (normalize : Bool) (stride : Int) (offset : Int)
  | enableVertexAttribArray (slot : Nat)
  | useProgram (program : Nat)
  | uniformMatrix4fv (location : Nat) (transpose : Bool) (data : List ℝ)
  | uniform1f (location : Nat) (value : ℝ)
  | drawArrays (mode : Nat) (offset : Int) (count : Int)

/-- True exactly on `drawArrays` commands. -/
def GLCmd.isDraw : GLCmd → Bool
  | .drawArrays _ _ _ => true
  | _ => false

/-- Modelled from the spec: `mat4_to_f32_16` (utils.rs, not under src/)
flattens a 4 by 4 matrix into the 16-element column-major float array
uploaded to the uniform (spec section 4.3 step 8: column-major 4 by 4
float arrays for matrices). -/
def mat4_to_f32_16 (m : Mat4) : List ℝ :=
  [m.m00, m.m10, m.m20, m.m30,
   m.m01, m.m11, m.m21, m.m31,
   m.m02, m.m12, m.m22, m.m32,
   m.m03, m.m13, m.m23, m.m33]

/-- Outcome of a Rust computation that may panic. -/
inductive Panics (α : Type) where
  | panicked (msg : String)
  | value (a : α)

/-- Rust `i32 as u32`: reinterpret modulo `2 ^ 32`. -/
def toU32 (i : Int) : Nat := (i % 4294967296).toNat

/-- Rust truncating division on `i32`, panicking when the divisor is 0. -/
def i32_div (a b : Int) : Panics Int :=
  if b = 0 then .panicked "attempt to divide by zero" else .value (Int.tdiv a b)

/-- `create_perspective_matrix` (src/shaders.rs lines 99-113): read the
canvas client dimensions, combine them with Rust integer division before
the cast to float, and build the nalgebra_glm perspective matrix for a
45-degree field of view between 0.1 and 100.0 units.  A missing canvas is
a string error; a zero client height panics (integer division by zero). -/
noncomputable def create_perspective_matrix (gl_context : GlContext) :
    Panics (Except String (List ℝ)) :=
  match gl_context.canvas with
  | none => .value (.error "Failed to get canvas on draw")
  | some canvas =>
    match i32_div canvas.client_width canvas.client_height with
    | .panicked msg => .panicked msg
    | .value q =>
      let aspect : ℝ := (q : ℝ)
      .value (.ok (mat4_to_f32_16 (glm_perspective aspect field_of_view z_near z_far)))

/-- The program descriptor (ProgramInfo, program_info.rs, not under src/):
a program handle plus the attribute name to slot index map (`i32` values)
and the uniform name to uniform handle map, both modelled as association
lists.  Shape modelled from the spec, section 3. -/
structure ProgramInfo where
  program : Nat
  attrib_locations : List (String × Int)
  uniform_locations : List (String × Nat)

/-- `BufferAttrib` (buffer_attrib.rs, not under src/): a named buffer
handle with its interpretation descriptor, as constructed in
`draw_scene`. -/
structure BufferAttrib where
  name : String
  buffer : Nat
  target : Nat
  num_components : Int
  buffer_type : Nat
  normalize : Bool
  stride : Int
  offset : Int

/-- Modelled from the spec: `bind_buffer_to_attrib` (buffer_attrib.rs,
not under src/) binds the buffer to the target, configures the vertex
attribute pointer with the given interpretation, and enables the
attribute slot (spec section 4.2); it issues no draw call and, with a
valid slot, succeeds. -/
def bind_buffer_to_attrib (ba : BufferAttrib) (slot : Nat) : List GLCmd :=
  [.bindBuffer ba.target ba.buffer,
   .vertexAttribPointer slot ba.num_components ba.buffer_type ba.normalize ba.stride ba.offset,
   .enableVertexAttribArray slot]

/-- Result of one `draw_scene` call: the Rust `Result` value together
with the trace of GL commands issued before returning, or a panic (from
an `unwrap` or a division by zero) with the trace issued up to it. -/
inductive DrawResult where
  | ok (trace : List GLCmd)
  | errored (msg : String) (trace : List GLCmd)
  | panicked (msg : String) (trace : List GLCmd)

/-- True exactly on the `ok` outcome. -/
def DrawResult.isOk : DrawResult → Prop
  | .ok _ => True
  | _ => False

/-- The message of Rust `Option::unwrap` on `None`. -/
def unwrap_none_msg : String := "called `Option::unwrap()` on a `None` value"

/-- `draw_scene` (src/shaders.rs lines 13-97), transcribed call by call:
clear state setup, both matrix builds, the two checked attribute lookups
with their buffer bindings (a missing attribute or buffer is an `ok_or`
string error), program activation, the three unchecked (`unwrap`) uniform
lookups with their uploads, and the single triangle-strip draw call. -/
noncomputable def draw_scene (gl_context : GlContext) (program_info : ProgramInfo)
    (buffers : List (String × Nat)) (time : ℝ) : DrawResult :=
  let t0 : List GLCmd :=
    [.clearColor 1.0 0.5 0.5 1.0,
     .enable DEPTH_TEST,
     .depthFunc LEQUAL,
     .clear (Nat.lor COLOR_BUFFER_BIT DEPTH_BUFFER_BIT)]
  match create_perspective_matrix gl_context with
  | .panicked msg => .panicked msg t0
  | .value (.error e) => .errored e t0
  | .value (.ok projection_matrix) =>
    let model_view_matrix := mat4_to_f32_16 (create_model_view_matrix time)
    match List.lookup "a_vertex_position" program_info.attrib_locations with
    | none => .errored "Failed to get `a_vertex_position` attribute" t0
    | some pos_loc =>
      let a_vertex_position := toU32 pos_loc
      match List.lookup "vertices" buffers with
      | none => .errored "Failed to get `a_vertex_position` attribute" t0
      | some vertices_buffer =>
        let a_vertex_position_buffer_attrib : BufferAttrib :=
          { name := "vertices", buffer := vertices_buffer, target := ARRAY_BUFFER
            num_components := 2, buffer_type := FLOAT, normalize := false
            stride := 0, offset := 0 }
        let t1 := t0 ++ bind_buffer_to_attrib a_vertex_position_buffer_attrib a_vertex_position
        match List.lookup "a_vertex_color" program_info.attrib_locations with
        | none => .errored "Failed to get `a_vertex_color` attribute" t1
        | some color_loc =>
          let a_vertex_color := toU32 color_loc
          match List.lookup "colors" buffers with
          | none => .errored "Failed to get `a_vertex_color` attribute" t1
          | some colors_buffer =>
            let a_vertex_color_buffer_attrib : BufferAttrib :=
              { name := "colors", buffer := colors_buffer, target := ARRAY_BUFFER
                num_components := 4, buffer_type := FLOAT, normalize := false
                stride := 0, offset := 0 }
            let t2 := t1 ++ bind_buffer_to_attrib a_vertex_color_buffer_attrib a_vertex_color
            let t3 := t2 ++ [.useProgram program_info.program]
            match List.lookup "u_projection_matrix" program_info.uniform_locations with
            | none => .panicked unwrap_none_msg t3
            | some u_projection =>
              let t4 := t3 ++ [.uniformMatrix4fv u_projection false projection_matrix]
              match List.lookup "u_model_view_matrix" program_info.uniform_locations with
              | none => .panicked unwrap_none_msg t4
              | some u_model_view =>
                let t5 := t4 ++ [.uniformMatrix4fv u_model_view false model_view_matrix]
                match List.lookup "u_time" program_info.uniform_locations with
                | none => .panicked unwrap_none_msg t5
                | some u_time_loc =>
                  let t6 := t5 ++ [.uniform1f u_time_loc time]
                  let vertex_count : Int := 4
                  let offset : Int := 0
                  .ok (t6 ++ [.drawArrays TRIANGLE_STRIP offset vertex_count])

/-- One animation tick of the frame driver (src/shaders.rs line 137): the
closure converts the host timestamp from milliseconds to seconds and
calls `draw_scene` with it, unwrapping the result. -/
noncomputable def frame_draw (gl_context : GlContext) (program_info : ProgramInfo)
    (buffers : List (String × Nat)) (t : ℝ) : DrawResult :=
  draw_scene gl_context program_info buffers (t * 0.001)

/-- The frame-driver loop (src/shaders.rs lines 136-141) over a sequence
of host timestamps: each tick runs `frame_draw` and, only when its result
unwraps without error, re-arms the callback so the next timestamp is
processed.  Returns how many ticks actually ran. -/
noncomputable def frames_executed (gl_context : GlContext) (program_info : ProgramInfo)
    (buffers : List (String × Nat)) : List ℝ → Nat
  | [] => 0
  | t :: rest =>
    match frame_draw gl_context program_info buffers t with
    | .ok _ => 1 + frames_executed gl_context program_info buffers rest
    | _ => 1

/-- Reference formula from the spec: the homogeneous translation matrix
for the vector `(vx, vy, vz)`. -/
def translation_matrix (vx vy vz : ℝ) : Mat4 where
  m00 := 1
  m01 := 0
  m02 := 0
  m03 := vx
  m10 := 0
  m11 := 1
  m12 := 0
  m13 := vy
  m20 := 0
  m21 := 0
  m22 := 1
  m23 := vz
  m30 := 0
  m31 := 0
  m32 := 0
  m33 := 1

/-- Reference formula from the spec: the homogeneous rotation matrix by
`a` radians about the axis `(0, 0, 1)`. -/
noncomputable def rotation_z_matrix (a : ℝ) : Mat4 where
  m00 := Real.cos a
  m01 := -Real.sin a
  m02 := 0
  m03 := 0
  m10 := Real.sin a
  m11 := Real.cos a
  m12 := 0
  m13 := 0
  m20 := 0
  m21 := 0
  m22 := 1
  m23 := 0
  m30 := 0
  m31 := 0
  m32 := 0
  m33 := 1

/-- Reference formula from the spec: start from the identity, translate
by `(0, 0, -6)`, then rotate by `a` radians about the axis `(0, 0, 1)`. -/
noncomputable def model_view_reference (a : ℝ) : Mat4 :=
  matMul (matMul identity4 (translation_matrix 0 0 (-6))) (rotation_z_matrix a)

/-- Reference formula from the spec: the standard perspective projection
matrix for field of view 45 degrees, near plane 0.1 and far plane 100.0
at aspect ratio `r` (right-handed, -1..1 depth range). -/
noncomputable def reference_perspective_matrix (r : ℝ) : Mat4 :=
  let f := 1 / Real.tan (45 * Real.pi / 180 / 2)
  let near : ℝ := 0.1
  let far : ℝ := 100.0
  { m00 := f / r, m01 := 0, m02 := 0, m03 := 0
    m10 := 0, m11 := f, m12 := 0, m13 := 0
    m20 := 0, m21 := 0, m22 := (far + near) / (near - far)
    m23 := 2 * far * near / (near - far)
    m30 := 0, m31 := 0, m32 := -1, m33 := 0 }

/-- Rotating about the axis `(0, 0, 1)` through the general axis-angle
path is multiplication by the plain z-rotation matrix. -/
theorem glm_rotate_zaxis (m : Mat4) (a : ℝ) :
    glm_rotate m a 0 0 1 = matMul m (rotation_z_matrix a) := by
  unfold glm_rotate rotation_z_matrix
  norm_num

/-- The z-rotation by angle 0 is the identity matrix. -/
theorem rotation_z_matrix_zero : rotation_z_matrix 0 = identity4 := by
  unfold rotation_z_matrix identity4
  norm_num

/-- `glm_translate` multiplies by the reference translation matrix. -/
theorem glm_translate_eq (m : Mat4) (vx vy vz : ℝ) :
    glm_translate m vx vy vz = matMul m (translation_matrix vx vy vz) := rfl

/-- Multiplying by the identity matrix on the right changes nothing. -/
theorem matMul_identity4 (m : Mat4) : matMul m identity4 = m := by
  ext <;> simp [matMul, identity4]

/-- C4: for every angle `a`, `create_model_view_matrix a` is the matrix
obtained by starting from the identity, translating by `(0, 0, -6)`,
then rotating by `a` radians about the axis `(0, 0, 1)`; in particular
`create_model_view_matrix 0` is the pure translation
`glm_translate identity4 0 0 (-6)` with no rotation applied. -/
theorem create_model_view_matrix_spec (a : ℝ) :
    create_model_view_matrix a = model_view_reference a ∧
    create_model_view_matrix 0 = glm_translate identity4 0 0 (-6) := by
  constructor
  · simp only [create_model_view_matrix, model_view_reference, glm_rotate_zaxis,
      glm_translate_eq]
  · simp only [create_model_view_matrix, glm_rotate_zaxis, rotation_z_matrix_zero,
      matMul_identity4]

/-- C5: for every aspect ratio `r > 0`, the perspective matrix the
builder constructs, `glm_perspective r field_of_view z_near z_far`,
equals element by element the standard perspective projection matrix for
field of view 45 degrees, near plane 0.1 and far plane 100.0 at aspect
ratio `r`. -/
theorem glm_perspective_matches_reference (r : ℝ) (hr : 0 < r) :
    glm_perspective r field_of_view z_near z_far = reference_perspective_matrix r := by
  ext <;>
    simp [glm_perspective, reference_perspective_matrix, field_of_view, z_near, z_far,
      div_div] <;>
    norm_num [mul_comm, div_eq_mul_inv]

/-- Witness for C5 at the concrete aspect ratio 1. -/
theorem glm_perspective_matches_reference_witness :
    (0 : ℝ) < 1 ∧
      glm_perspective 1 field_of_view z_near z_far = reference_perspective_matrix 1 :=
  ⟨one_pos, glm_perspective_matches_reference 1 one_pos⟩

/-- C1: for every program descriptor with attribute slots for
`a_vertex_position` and `a_vertex_color` and uniform handles for
`u_projection_matrix`, `u_model_view_matrix` and `u_time`, and every
buffer set with keys `vertices` and `colors` (over a canvas of nonzero
client height), `draw_scene` at time 1000.0 returns `Ok` and issues
exactly one draw call: triangle-strip mode, vertex count 4, offset 0. -/
theorem draw_scene_full_descriptor_one_draw (c : Canvas) (program_info : ProgramInfo)
    (buffers : List (String × Nat)) (p q : Int) (up um ut vb cb : Nat)
    (hc : c.client_height ≠ 0)
    (hpos : List.lookup "a_vertex_position" program_info.attrib_locations = some p)
    (hcol : List.lookup "a_vertex_color" program_info.attrib_locations = some q)
    (hup : List.lookup "u_projection_matrix" program_info.uniform_locations = some up)
    (hum : List.lookup "u_model_view_matrix" program_info.uniform_locations = some um)
    (hut : List.lookup "u_time" program_info.uniform_locations = some ut)
    (hvb : List.lookup "vertices" buffers = some vb)
    (hcb : List.lookup "colors" buffers = some cb) :
    ∃ tr, draw_scene ⟨some c⟩ program_info buffers 1000 = .ok tr ∧
      List.filter GLCmd.isDraw tr = [.drawArrays TRIANGLE_STRIP 0 4] := by
  simp only [draw_scene, create_perspective_matrix, i32_div, hc, if_neg, hpos, hcol,
    hup, hum, hut, hvb, hcb, ite_false]
  exact ⟨_, rfl, by simp [bind_buffer_to_attrib, GLCmd.isDraw]⟩

/-- Witness for C1 at a concrete descriptor and buffer set. -/
theorem draw_scene_full_descriptor_one_draw_witness :
    ∃ tr, draw_scene ⟨some ⟨640, 480⟩⟩
        ⟨7, [("a_vertex_position", 0), ("a_vertex_color", 1)],
         [("u_projection_matrix", 2), ("u_model_view_matrix", 3), ("u_time", 4)]⟩
        [("vertices", 5), ("colors", 6)] 1000 = .ok tr ∧
      List.filter GLCmd.isDraw tr = [.drawArrays TRIANGLE_STRIP 0 4] :=
  draw_scene_full_descriptor_one_draw ⟨640, 480⟩ _ _ 0 1 2 3 4 5 6
    (by decide) (by decide) (by decide) (by decide) (by decide) (by decide)
    (by decide) (by decide)

/-- C2: for every program descriptor whose attribute mapping lacks the
key `a_vertex_position` (over a canvas of nonzero client height),
`draw_scene` returns the descriptive lookup-failure error rather than
panicking, and its trace holds no draw call. -/
theorem draw_scene_missing_position_errors (c : Canvas) (program_info : ProgramInfo)
    (buffers : List (String × Nat)) (time : ℝ)
    (hc : c.client_height ≠ 0)
    (hpos : List.lookup "a_vertex_position" program_info.attrib_locations = none) :
    ∃ tr, draw_scene ⟨some c⟩ program_info buffers time =
        .errored "Failed to get `a_vertex_position` attribute" tr ∧
      List.filter GLCmd.isDraw tr = [] := by
  simp only [draw_scene, create_perspective_matrix, i32_div, hc, if_neg, hpos, ite_false]
  exact ⟨_, rfl, by simp [GLCmd.isDraw]⟩

/-- Witness for C2 at a concrete descriptor lacking the position slot. -/
theorem draw_scene_missing_position_errors_witness :
    ∃ tr, draw_scene ⟨some ⟨640, 480⟩⟩
        ⟨7, [("a_vertex_color", 1)],
         [("u_projection_matrix", 2), ("u_model_view_matrix", 3), ("u_time", 4)]⟩
        [("vertices", 5), ("colors", 6)] 1000 =
        .errored "Failed to get `a_vertex_position` attribute" tr ∧
      List.filter GLCmd.isDraw tr = [] :=
  draw_scene_missing_position_errors ⟨640, 480⟩ _ _ 1000 (by decide) (by decide)

/-- C3: for every program descriptor whose uniform mapping lacks the key
`u_time` while both attributes, both buffers and the two matrix uniforms
are present (over a canvas of nonzero client height), `draw_scene` fails
hard with the `Option::unwrap` panic instead of returning a typed error
value. -/
theorem draw_scene_missing_u_time_panics (c : Canvas) (program_info : ProgramInfo)
    (buffers : List (String × Nat)) (time : ℝ) (p q : Int) (up um vb cb : Nat)
    (hc : c.client_height ≠ 0)
    (hpos : List.lookup "a_vertex_position" program_info.attrib_locations = some p)
    (hcol : List.lookup "a_vertex_color" program_info.attrib_locations = some q)
    (hup : List.lookup "u_projection_matrix" program_info.uniform_locations = some up)
    (hum : List.lookup "u_model_view_matrix" program_info.uniform_locations = some um)
    (hut : List.lookup "u_time" program_info.uniform_locations = none)
    (hvb : List.lookup "vertices" buffers = some vb)
    (hcb : List.lookup "colors" buffers = some cb) :
    ∃ tr, draw_scene ⟨some c⟩ program_info buffers time = .panicked unwrap_none_msg tr := by
  simp only [draw_scene, create_perspective_matrix, i32_div, hc, if_neg, hpos, hcol,
    hup, hum, hut, hvb, hcb, ite_false]
  exact ⟨_, rfl⟩

/-- Witness for C3 at a concrete descriptor lacking only `u_time`. -/
theorem draw_scene_missing_u_time_panics_witness :
    ∃ tr, draw_scene ⟨some ⟨640, 480⟩⟩
        ⟨7, [("a_vertex_position", 0), ("a_vertex_color", 1)],
         [("u_projection_matrix", 2), ("u_model_view_matrix", 3)]⟩
        [("vertices", 5), ("colors", 6)] 1000 = .panicked unwrap_none_msg tr :=
  draw_scene_missing_u_time_panics ⟨640, 480⟩ _ _ 1000 0 1 2 3 5 6
    (by decide) (by decide) (by decide) (by decide) (by decide) (by decide)
    (by decide) (by decide)

/-- C10: a buffer set lacking `vertices` makes `draw_scene` return
exactly the message of a missing `a_vertex_position` attribute, and a
buffer set lacking `colors` (with `vertices` present) exactly the
message of a missing `a_vertex_color` attribute — a missing buffer is
indistinguishable from a missing attribute by the error message — and in
both cases the trace holds no draw call. -/
theorem draw_scene_missing_buffer_messages (c : Canvas) (program_info : ProgramInfo)
    (buffers1 buffers2 : List (String × Nat)) (time : ℝ) (p q : Int) (vb : Nat)
    (hc : c.client_height ≠ 0)
    (hpos : List.lookup "a_vertex_position" program_info.attrib_locations = some p)
    (hcol : List.lookup "a_vertex_color" program_info.attrib_locations = some q)
    (hv1 : List.lookup "vertices" buffers1 = none)
    (hv2 : List.lookup "vertices" buffers2 = some vb)
    (hc2 : List.lookup "colors" buffers2 = none) :
    (∃ tr, draw_scene ⟨some c⟩ program_info buffers1 time =
        .errored "Failed to get `a_vertex_position` attribute" tr ∧
      List.filter GLCmd.isDraw tr = []) ∧
    (∃ tr, draw_scene ⟨some c⟩ program_info buffers2 time =
        .errored "Failed to get `a_vertex_color` attribute" tr ∧
      List.filter GLCmd.isDraw tr = []) := by
  constructor
  · simp only [draw_scene, create_perspective_matrix, i32_div, hc, if_neg, hpos, hv1,
      ite_false]
    exact ⟨_, rfl, by simp [GLCmd.isDraw]⟩
  · simp only [draw_scene, create_perspective_matrix, i32_div, hc, if_neg, hpos, hcol,
      hv2, hc2, ite_false]
    exact ⟨_, rfl, by simp [bind_buffer_to_attrib, GLCmd.isDraw]⟩

/-- Witness for C10 at concrete buffer sets. -/
theorem draw_scene_missing_buffer_messages_witness :
    (∃ tr, draw_scene ⟨some ⟨640, 480⟩⟩
        ⟨7, [("a_vertex_position", 0), ("a_vertex_color", 1)],
         [("u_projection_matrix", 2), ("u_model_view_matrix", 3), ("u_time", 4)]⟩
        [("colors", 6)] 1000 =
        .errored "Failed to get `a_vertex_position` attribute" tr ∧
      List.filter GLCmd.isDraw tr = []) ∧
    (∃ tr, draw_scene ⟨some ⟨640, 480⟩⟩
        ⟨7, [("a_vertex_position", 0), ("a_vertex_color", 1)],
         [("u_projection_matrix", 2), ("u_model_view_matrix", 3), ("u_time", 4)]⟩
        [("vertices", 5)] 1000 =
        .errored "Failed to get `a_vertex_color` attribute" tr ∧
      List.filter GLCmd.isDraw tr = []) :=
  draw_scene_missing_buffer_messages ⟨640, 480⟩ _ _ _ 1000 0 1 5
    (by decide) (by decide) (by decide) (by decide) (by decide) (by decide)

/-- C7: on every frame, the driver passes `time * 0.001` (the host
timestamp converted from milliseconds to seconds) to `draw_scene`, which
uploads exactly `create_model_view_matrix (t * 0.001)` as the model-view
uniform: the rotation angle is the converted timestamp. -/
theorem frame_draw_model_view_angle (c : Canvas) (program_info : ProgramInfo)
    (buffers : List (String × Nat)) (t : ℝ) (p q : Int) (up um ut vb cb : Nat)
    (hc : c.client_height ≠ 0)
    (hpos : List.lookup "a_vertex_position" program_info.attrib_locations = some p)
    (hcol : List.lookup "a_vertex_color" program_info.attrib_locations = some q)
    (hup : List.lookup "u_projection_matrix" program_info.uniform_locations = some up)
    (hum : List.lookup "u_model_view_matrix" program_info.uniform_locations = some um)
    (hut : List.lookup "u_time" program_info.uniform_locations = some ut)
    (hvb : List.lookup "vertices" buffers = some vb)
    (hcb : List.lookup "colors" buffers = some cb) :
    ∃ tr, frame_draw ⟨some c⟩ program_info buffers t = .ok tr ∧
      GLCmd.uniformMatrix4fv um false
        (mat4_to_f32_16 (create_model_view_matrix (t * 0.001))) ∈ tr := by
  simp only [frame_draw, draw_scene, create_perspective_matrix, i32_div, hc, if_neg,
    hpos, hcol, hup, hum, hut, hvb, hcb, ite_false]
  exact ⟨_, rfl, by simp [bind_buffer_to_attrib]⟩

/-- Witness for C7 at a concrete descriptor and timestamp. -/
theorem frame_draw_model_view_angle_witness :
    ∃ tr, frame_draw ⟨some ⟨640, 480⟩⟩
        ⟨7, [("a_vertex_position", 0), ("a_vertex_color", 1)],
         [("u_projection_matrix", 2), ("u_model_view_matrix", 3), ("u_time", 4)]⟩
        [("vertices", 5), ("colors", 6)] 1000 = .ok tr ∧
      GLCmd.uniformMatrix4fv 3 false
        (mat4_to_f32_16 (create_model_view_matrix (1000 * 0.001))) ∈ tr :=
  frame_draw_model_view_angle ⟨640, 480⟩ _ _ 1000 0 1 2 3 4 5 6
    (by decide) (by decide) (by decide) (by decide) (by decide) (by decide)
    (by decide) (by decide)

/-- C8: in the frame-driver loop, once the scene drawer fails on a
frame, no further animation frame is ever scheduled: with a failing
first tick, exactly one tick runs no matter how many timestamps would
follow. -/
theorem frames_executed_stops_on_failure (gl_context : GlContext)
    (program_info : ProgramInfo) (buffers : List (String × Nat)) (t : ℝ) (rest : List ℝ)
    (hfail : ¬ (frame_draw gl_context program_info buffers t).isOk) :
    frames_executed gl_context program_info buffers (t :: rest) = 1 := by
  simp only [frames_executed]
  cases h : frame_draw gl_context program_info buffers t with
  | ok tr => exact absurd (by rw [h]; trivial) hfail
  | errored msg tr => rfl
  | panicked msg tr => rfl

/-- Witness for C8: a context with no canvas fails the first tick and
the loop over two pending timestamps runs only that one tick. -/
theorem frames_executed_stops_on_failure_witness :
    ¬ (frame_draw ⟨none⟩ ⟨7, [], []⟩ [] 0).isOk ∧
      frames_executed ⟨none⟩ ⟨7, [], []⟩ [] [0, 1] = 1 :=
  ⟨by simp [frame_draw, draw_scene, create_perspective_matrix, DrawResult.isOk],
   frames_executed_stops_on_failure ⟨none⟩ ⟨7, [], []⟩ [] 0 [1]
     (by simp [frame_draw, draw_scene, create_perspective_matrix, DrawResult.isOk])⟩

/-- C6: for every canvas with nonzero client height, the aspect ratio
the projection builder uses is the Rust integer division of width by
height, truncating toward zero, cast to float afterwards — for
width 3 and height 2 that aspect is 1.0, not the floating-point
quotient 3 / 2. -/
theorem create_perspective_matrix_truncates (c : Canvas) (hc : c.client_height ≠ 0) :
    create_perspective_matrix ⟨some c⟩ =
      .value (.ok (mat4_to_f32_16 (glm_perspective
        ((Int.tdiv c.client_width c.client_height : ℤ) : ℝ)
        field_of_view z_near z_far))) ∧
    (((Int.tdiv 3 2 : ℤ) : ℝ) = 1 ∧ ((3 : ℝ) / 2) ≠ 1) := by
  refine ⟨?_, by norm_num [show (Int.tdiv 3 2 : ℤ) = 1 from rfl], by norm_num⟩
  simp [create_perspective_matrix, i32_div, hc]

/-- Witness for C6 at the concrete canvas 3 by 2. -/
theorem create_perspective_matrix_truncates_witness :
    create_perspective_matrix ⟨some ⟨3, 2⟩⟩ =
      .value (.ok (mat4_to_f32_16 (glm_perspective
        ((Int.tdiv 3 2 : ℤ) : ℝ) field_of_view z_near z_far))) ∧
    (((Int.tdiv 3 2 : ℤ) : ℝ) = 1 ∧ ((3 : ℝ) / 2) ≠ 1) :=
  create_perspective_matrix_truncates ⟨3, 2⟩ (by decide)

/-- C9: a canvas reporting client height 0 makes the projection builder
panic with the Rust integer division-by-zero message instead of
returning an error value. -/
theorem create_perspective_matrix_zero_height_panics (w : Int) :
    create_perspective_matrix ⟨some ⟨w, 0⟩⟩ =
      .panicked "attempt to divide by zero" := by
  simp [create_perspective_matrix, i32_div]

end Webgl
